import Mathlib

/-!
Shallow embedding of the job scheduler (`job_scheduler.py`).

The persistent SQLite table `jobs` is modelled as a `List Job` in rowid
(insertion) order.  Timestamps (`datetime.now().isoformat()`) are abstracted
to `Nat` instants supplied by the caller; the filesystem (`os.path.exists`)
is a `List String` of the paths that currently exist; the external process
(`subprocess.run(cmd, check=True)`) is abstracted by an `Option Int`
outcome (`none` = launch raised before a return code was observed,
`some c` = the process ran and exited with code `c`).
-/

namespace JobScheduler

/-- One row of the `jobs` table (schema from `setup_database`). -/
structure Job where
  id : Nat
  input_file : String
  status : String
  start_time : Option Nat
  end_time : Option Nat
  exit_code : Option Int
  attempts : Nat
deriving DecidableEq, Repr

/-- The row inserted by `add_job`: `(input_file, 'pending', 0)`, other
columns NULL. -/
def pendingJob (i : Nat) (f : String) : Job :=
  { id := i, input_file := f, status := "pending",
    start_time := none, end_time := none, exit_code := none, attempts := 0 }

/-- A fresh `INTEGER PRIMARY KEY`: SQLite assigns max existing rowid + 1. -/
def freshId (db : List Job) : Nat :=
  db.foldr (fun j m => max j.id m) 0 + 1

/-- `add_job`: `INSERT OR IGNORE INTO jobs (input_file, status, attempts)
VALUES (?, 'pending', 0)` — the `UNIQUE` constraint on `input_file` makes
the insert a no-op when the path is already present. -/
def add_job (db : List Job) (f : String) : List Job :=
  if db.any (fun j => j.input_file == f) then db
  else db ++ [pendingJob (freshId db) f]

/-- `remove_job`: `SELECT id, status FROM jobs WHERE input_file = ?`
(`fetchone` takes the first match), then `DELETE FROM jobs WHERE id = ?`;
no-op when no row matches. -/
def remove_job (db : List Job) (f : String) : List Job :=
  match db.find? (fun j => j.input_file == f) with
  | none => db
  | some j0 => db.filter (fun j => !(j.id == j0.id))

/-- `get_all_job_files`: `SELECT input_file FROM jobs`. -/
def get_all_job_files (db : List Job) : List String :=
  db.map (fun j => j.input_file)

/-- `get_pending_jobs`: `SELECT id, input_file FROM jobs WHERE status IN
('pending', 'failed')`. -/
def get_pending_jobs (db : List Job) : List (Nat × String) :=
  (db.filter (fun j => j.status == "pending" || j.status == "failed")).map
    (fun j => (j.id, j.input_file))

/-- The `UPDATE jobs SET status = 'running', start_time = ?, attempts =
attempts + 1 WHERE id = ?` statement of `run_job`, applied to one row. -/
def markRunningRow (job_id t : Nat) (j : Job) : Job :=
  if j.id = job_id then
    { j with status := "running", start_time := some t,
             attempts := j.attempts + 1 }
  else j

def mark_running (db : List Job) (job_id t : Nat) : List Job :=
  db.map (markRunningRow job_id t)

/-- The `UPDATE jobs SET status = ?, end_time = ?, exit_code = ? WHERE
id = ?` statement of `run_job`, applied to one row. -/
def markFinishedRow (job_id : Nat) (st : String) (ec : Int) (t : Nat)
    (j : Job) : Job :=
  if j.id = job_id then
    { j with status := st, end_time := some t, exit_code := some ec }
  else j

def mark_finished (db : List Job) (job_id : Nat) (st : String) (ec : Int)
    (t : Nat) : List Job :=
  db.map (markFinishedRow job_id st ec t)

/-- `subprocess.run(cmd, check=True)`: a launch failure raises, and
`check=True` raises `CalledProcessError` on any nonzero return code, so the
`try` block only yields a return code when it is zero. -/
def runWithCheck (outcome : Option Int) : Except String Int :=
  match outcome with
  | none => Except.error "launch failure"
  | some c => if c = 0 then Except.ok c else Except.error "CalledProcessError"

/-- `run_job(job_id, input_file)`.  `configOk` is whether opening and
parsing `command.json` succeeded (the argv template itself is irrelevant to
the store and is not modelled); `fs` is the filesystem; `outcome` the
external process behaviour; `t1`, `t2` the two `datetime.now()` instants.
Returns the updated store and the returned status string. -/
def run_job (configOk : Bool) (fs : List String) (outcome : Option Int)
    (t1 t2 : Nat) (db : List Job) (job_id : Nat) (input_file : String) :
    List Job × String :=
  if !configOk then (db, "failed")
  else if !(fs.contains input_file) then (remove_job db input_file, "removed")
  else
    let db1 := mark_running db job_id t1
    let ec_st : Int × String :=
      match runWithCheck outcome with
      | Except.ok code => (code, if code = 0 then "completed" else "failed")
      | Except.error _ => (1, "failed")
    (mark_finished db1 job_id ec_st.2 ec_st.1 t2, ec_st.2)

/-- `os.path.basename`: everything after the last `/`. -/
def basename (p : String) : String :=
  String.mk ((p.toList.reverse.takeWhile (fun c => c ≠ '/')).reverse)

/-- Python `str.startswith`. -/
def isLeadOf : List Char → List Char → Bool
  | [], _ => true
  | _ :: _, [] => false
  | c :: cs, d :: ds => c == d && isLeadOf cs ds

def strStartsWith (p d : String) : Bool :=
  isLeadOf d.toList p.toList

/-- The scope test of `sync_database_with_filesystem`:
`monitor_dir is None or (file_path.startswith(monitor_dir) and
os.path.basename(file_path) == pattern)`.  When `monitor_dir` is given but
`pattern` is `None` the Python comparison `basename == None` is `False`. -/
def inSyncScope (monitor_dir pattern : Option String) (p : String) : Bool :=
  match monitor_dir with
  | none => true
  | some d => strStartsWith p d && (some (basename p) == pattern)

/-- The loop body of `sync_database_with_filesystem`: iterate over the file
list computed up front, removing each in-scope path that no longer exists
from the current store. -/
def syncRemove (fs : List String) (monitor_dir pattern : Option String) :
    List String → List Job → List Job
  | [], db => db
  | p :: rest, db =>
    if inSyncScope monitor_dir pattern p then
      if fs.contains p then syncRemove fs monitor_dir pattern rest db
      else syncRemove fs monitor_dir pattern rest (remove_job db p)
    else syncRemove fs monitor_dir pattern rest db

/-- `sync_database_with_filesystem(monitor_dir=None, pattern=None)`:
`all_job_files = self.get_all_job_files()` once, then remove every in-scope
entry whose file does not exist. -/
def sync_database_with_filesystem (fs : List String)
    (monitor_dir pattern : Option String) (db : List Job) : List Job :=
  syncRemove fs monitor_dir pattern (get_all_job_files db) db

/-- The per-cycle idle-wait bookkeeping of `run_pending_jobs`, run over a
finite trace of cycles, each abstracted to the length of its (possibly
truncated) pending-job list — only emptiness matters to the timer.  A
non-empty cycle executes `waiting_timer = 1` inside its `for` loop (net
effect: reset to 1) and emits no wait; an empty cycle doubles the timer,
caps it at 300 and waits for it.  Returns the emitted wait durations. -/
def loopWaits : Nat → List Nat → List Nat
  | _, [] => []
  | timer, n :: rest =>
    if 0 < n then loopWaits 1 rest
    else
      let t := min (timer * 2) 300
      t :: loopWaits t rest

/-- The per-cycle job selection of `run_pending_jobs` (lines 178–181):
`pending_jobs = self.get_pending_jobs()`, then
`if max_jobs: pending_jobs = pending_jobs[:max_jobs]` — Python falsiness
means `max_jobs=0` (like `None`) skips the truncation, and a negative slice
bound drops elements from the end. -/
def pySliceTo (n : Int) (xs : List (Nat × String)) : List (Nat × String) :=
  if 0 ≤ n then xs.take n.toNat else xs.take (xs.length - (-n).toNat)

def select_jobs_for_cycle (max_jobs : Option Int) (db : List Job) :
    List (Nat × String) :=
  let pending := get_pending_jobs db
  match max_jobs with
  | none => pending
  | some n => if n = 0 then pending else pySliceTo n pending

/-- Whether a store operation returned to its caller rather than raising. -/
def returnsNormally {α : Type} : Except String α → Bool
  | Except.ok _ => true
  | Except.error _ => false

/-- Where, if anywhere, the persistence layer fails during one store
operation: `connectFail` is `sqlite3.connect` raising (store unreachable:
`sqlite3.OperationalError`, a `sqlite3.Error`), which in every operation
happens before any `try` block is entered; `stmtFail` is a
`sqlite3.Error` raised by the `cursor.execute`/`commit` statements
themselves. -/
inductive PersistFailure where
  | noFail
  | connectFail
  | stmtFail
deriving DecidableEq, Repr

/-- `add_job`: `sqlite3.connect` (line 51) runs before the
`try/except sqlite3.Error` block, so a connect-time failure propagates;
a statement-time failure is caught, logged, and the call returns normally
with the insert uncommitted. -/
def add_job_op (mode : PersistFailure) (db : List Job) (f : String) :
    Except String (List Job) :=
  match mode with
  | PersistFailure.noFail => Except.ok (add_job db f)
  | PersistFailure.connectFail => Except.error "sqlite3.OperationalError"
  | PersistFailure.stmtFail => Except.ok db

/-- `remove_job`: same shape — `sqlite3.connect` (line 68) precedes the
`try`, statement failures are caught inside it. -/
def remove_job_op (mode : PersistFailure) (db : List Job) (f : String) :
    Except String (List Job) :=
  match mode with
  | PersistFailure.noFail => Except.ok (remove_job db f)
  | PersistFailure.connectFail => Except.error "sqlite3.OperationalError"
  | PersistFailure.stmtFail => Except.ok db

/-- `get_all_job_files` has no `try/except` at all: both connect-time and
statement-time persistence failures propagate to the caller. -/
def get_all_job_files_op (mode : PersistFailure) (db : List Job) :
    Except String (List String) :=
  match mode with
  | PersistFailure.noFail => Except.ok (get_all_job_files db)
  | PersistFailure.connectFail => Except.error "sqlite3.OperationalError"
  | PersistFailure.stmtFail => Except.error "sqlite3.Error"

/-- `get_pending_jobs` has no `try/except` either. -/
def get_pending_jobs_op (mode : PersistFailure) (db : List Job) :
    Except String (List (Nat × String)) :=
  match mode with
  | PersistFailure.noFail => Except.ok (get_pending_jobs db)
  | PersistFailure.connectFail => Except.error "sqlite3.OperationalError"
  | PersistFailure.stmtFail => Except.error "sqlite3.Error"

/-- The inline mark-running connect + `UPDATE` in `run_job` (lines
135–144) runs outside any `try`. -/
def mark_running_op (mode : PersistFailure) (db : List Job) (job_id t : Nat) :
    Except String (List Job) :=
  match mode with
  | PersistFailure.noFail => Except.ok (mark_running db job_id t)
  | PersistFailure.connectFail => Except.error "sqlite3.OperationalError"
  | PersistFailure.stmtFail => Except.error "sqlite3.Error"

/-- The inline mark-finished connect + `UPDATE` in `run_job` (lines
162–169) runs outside any `try`. -/
def mark_finished_op (mode : PersistFailure) (db : List Job) (job_id : Nat)
    (st : String) (ec : Int) (t : Nat) : Except String (List Job) :=
  match mode with
  | PersistFailure.noFail => Except.ok (mark_finished db job_id st ec t)
  | PersistFailure.connectFail => Except.error "sqlite3.OperationalError"
  | PersistFailure.stmtFail => Except.error "sqlite3.Error"

/-! ### Helper lemmas -/

theorem markRunningRow_id (i t : Nat) (j : Job) :
    (markRunningRow i t j).id = j.id := by
  unfold markRunningRow
  split <;> rfl

theorem markFinishedRow_id (i : Nat) (st : String) (ec : Int) (t : Nat)
    (j : Job) : (markFinishedRow i st ec t j).id = j.id := by
  unfold markFinishedRow
  split <;> rfl

theorem remove_job_mem {db : List Job} {f : String} {j : Job}
    (h : j ∈ remove_job db f) : j ∈ db := by
  unfold remove_job at h
  split at h
  · exact h
  · exact List.mem_of_mem_filter h

theorem remove_job_eq_filter (db : List Job) (f : String)
    (hid : (db.map Job.id).Nodup) (hpath : (db.map Job.input_file).Nodup) :
    remove_job db f = db.filter (fun j => !(j.input_file == f)) := by
  unfold remove_job
  cases hfind : db.find? (fun j => j.input_file == f) with
  | none =>
    have hall := List.find?_eq_none.1 hfind
    symm
    refine List.filter_eq_self.2 ?_
    intro j hj
    have := hall j hj
    simpa using this
  | some j0 =>
    have hj0 : j0 ∈ db := List.mem_of_find?_eq_some hfind
    have hp0 : j0.input_file = f := by simpa using List.find?_some hfind
    refine List.filter_congr ?_
    intro j hj
    by_cases h : j.id = j0.id
    · have hjj : j = j0 := List.inj_on_of_nodup_map hid hj hj0 h
      simp [hjj, hp0]
    · have hne : j ≠ j0 := fun he => h (by rw [he])
      have hpne : j.input_file ≠ f := by
        intro hpf
        exact hne (List.inj_on_of_nodup_map hpath hj hj0 (by rw [hpf, hp0]))
      simp [h, hpne]

theorem mark_finished_fields (db : List Job) (i : Nat) (st : String)
    (ec : Int) (t : Nat) :
    ∀ j ∈ mark_finished db i st ec t, j.id = i →
      j.status = st ∧ j.exit_code = some ec := by
  intro j hj hjid
  rcases List.mem_map.1 hj with ⟨j0, hj0, rfl⟩
  by_cases h : j0.id = i
  · simp [markFinishedRow, h]
  · rw [markFinishedRow_id] at hjid
    exact absurd hjid h

theorem syncRemove_mem (fs : List String) (md pat : Option String) :
    ∀ (F : List String) (db : List Job) (j : Job),
      j ∈ syncRemove fs md pat F db → j ∈ db := by
  intro F
  induction F with
  | nil => intro db j h; exact h
  | cons p rest ih =>
    intro db j h
    unfold syncRemove at h
    split at h
    · split at h
      · exact ih db j h
      · exact remove_job_mem (ih _ j h)
    · exact ih db j h

/-! ### Claim theorems -/

/-- Claim C1 (counterexample): on a config-load failure `run_job` returns
the string `failed` but leaves the store untouched — the job's row is
still `pending`, not `failed` as the claim states. -/
theorem run_job_config_error_counterexample :
    (run_job false [] (some 0) 0 0 [pendingJob 1 "/a/x"] 1 "/a/x").1
        = [pendingJob 1 "/a/x"]
    ∧ ¬ ∀ j ∈ (run_job false [] (some 0) 0 0 [pendingJob 1 "/a/x"] 1 "/a/x").1,
        j.status = "failed" := by
  decide

/-- Claim C1 (amended): if loading/parsing the command template fails at
the start of `run_job`, the call returns outcome `failed` without
attempting execution and without modifying the store — the job's stored
row, status included, is left exactly as it was. -/
theorem run_job_config_error_returns_failed_unchanged
    (fs : List String) (outcome : Option Int) (t1 t2 : Nat) (db : List Job)
    (job_id : Nat) (f : String) :
    run_job false fs outcome t1 t2 db job_id f = (db, "failed") := rfl

/-- Claim C2 (counterexample): the timer is doubled before the first idle
wait, so a maximal idle run waits 2, 4, 8, … seconds, never 1; and the
first idle wait after a busy cycle is 2, not 1. -/
theorem idle_backoff_counterexample :
    loopWaits 1 [0, 0, 0] = [2, 4, 8] ∧ loopWaits 1 [0, 0, 0] ≠ [1, 2, 4]
    ∧ loopWaits 1 [5, 0] = [2] ∧ loopWaits 1 [5, 0] ≠ [1] := by
  decide

/-- Claim C4 (code bug): the scoped reconciliation pass of
`monitor_directory` compares a stored file's basename to the glob pattern
literally, so a vanished file matching the watch pattern (dir `/d`,
pattern `*`, stored job `/d/a.txt`, file absent) is NOT removed, although
the code's own comment says it removes every entry whose file no longer
exists. -/
theorem scoped_sync_misses_vanished_file :
    sync_database_with_filesystem [] (some "/d") (some "*")
        [pendingJob 1 "/d/a.txt"] = [pendingJob 1 "/d/a.txt"]
    ∧ ([] : List String).contains "/d/a.txt" = false := by
  decide

/-- Claim C8 (counterexample): Python falsiness makes `max_jobs = 0` skip
the truncation entirely, so with three actionable jobs the cycle selects
all three, not at most zero. -/
theorem max_jobs_zero_counterexample :
    (select_jobs_for_cycle (some 0)
        [pendingJob 1 "/a", pendingJob 2 "/b", pendingJob 3 "/c"]).length = 3
    ∧ ¬ ((select_jobs_for_cycle (some 0)
        [pendingJob 1 "/a", pendingJob 2 "/b", pendingJob 3 "/c"]).length ≤ 0) := by
  decide

/-- Claim C8 (amended): for every positive `max_jobs = n`, the cycle
selects exactly `min n (number of actionable jobs)` jobs — in particular
at most `n` per cycle, and exactly one when `n = 1` with three actionable
jobs present. -/
theorem select_jobs_truncation_length (n : Int) (db : List Job)
    (hn : 0 < n) :
    (select_jobs_for_cycle (some n) db).length
      = min n.toNat (get_pending_jobs db).length := by
  have hne : n ≠ 0 := by omega
  have hnn : (0:Int) ≤ n := le_of_lt hn
  simp [select_jobs_for_cycle, pySliceTo, hne, hnn, List.length_take]

/-- Witness for the amended claim C8 at `n = 1` with three actionable
jobs. -/
theorem select_jobs_truncation_length_witness :
    (select_jobs_for_cycle (some 1)
        [pendingJob 1 "/a", pendingJob 2 "/b", pendingJob 3 "/c"]).length
      = min (Int.toNat 1)
          (get_pending_jobs
            [pendingJob 1 "/a", pendingJob 2 "/b", pendingJob 3 "/c"]).length :=
  select_jobs_truncation_length 1
    [pendingJob 1 "/a", pendingJob 2 "/b", pendingJob 3 "/c"] (by decide)

/-- Claim C9 (counterexample): `get_all_job_files` has no `try/except`,
so a statement-time persistence failure propagates to its caller; and
even `add_job` raises on a connect-time failure, because
`sqlite3.connect` runs before its `try` block. -/
theorem persistence_error_propagates_counterexample :
    returnsNormally (get_all_job_files_op PersistFailure.stmtFail []) = false
    ∧ returnsNormally
        (add_job_op PersistFailure.connectFail [] "/a/x") = false := by
  decide

/-- Claim C9 (amended): `add_job` and `remove_job` catch persistence
failures raised by their SQL statements inside `try/except sqlite3.Error`
and return normally, but a connect-time failure (store unreachable)
propagates even from them because `sqlite3.connect` runs before the
`try`; `get_all_job_files`, `get_pending_jobs` and the two inline status
updates of `run_job` have no handler and propagate every persistence
failure. -/
theorem store_ops_persistence_error_behaviour (mode : PersistFailure)
    (db : List Job) (f : String) (job_id t : Nat) (st : String) (ec : Int) :
    returnsNormally (add_job_op PersistFailure.stmtFail db f) = true
    ∧ returnsNormally (remove_job_op PersistFailure.stmtFail db f) = true
    ∧ returnsNormally (add_job_op PersistFailure.connectFail db f) = false
    ∧ returnsNormally (remove_job_op PersistFailure.connectFail db f) = false
    ∧ (mode ≠ PersistFailure.noFail →
        returnsNormally (get_all_job_files_op mode db) = false
        ∧ returnsNormally (get_pending_jobs_op mode db) = false
        ∧ returnsNormally (mark_running_op mode db job_id t) = false
        ∧ returnsNormally (mark_finished_op mode db job_id st ec t) = false) := by
  refine ⟨rfl, rfl, rfl, rfl, ?_⟩
  intro hmode
  cases mode with
  | noFail => exact absurd rfl hmode
  | connectFail => exact ⟨rfl, rfl, rfl, rfl⟩
  | stmtFail => exact ⟨rfl, rfl, rfl, rfl⟩

/-- Witness for the amended claim C9 with a failing persistence layer. -/
theorem store_ops_persistence_error_behaviour_witness :
    returnsNormally (add_job_op PersistFailure.stmtFail [] "/a") = true
    ∧ returnsNormally
        (get_pending_jobs_op PersistFailure.connectFail []) = false := by
  have h := store_ops_persistence_error_behaviour PersistFailure.connectFail
    [] "/a" 0 0 "failed" 1
  exact ⟨h.1, (h.2.2.2.2 (by decide)).2.1⟩

/-- Claim C5: `add_job` is idempotent on the path key — an unseen path
inserts exactly one `pending` row with `attempts = 0`, and a second add of
the same path is a complete no-op. -/
theorem add_job_idempotent (db : List Job) (f : String) :
    (db.any (fun j => j.input_file == f) = false →
        add_job db f = db ++ [pendingJob (freshId db) f]
        ∧ add_job (add_job db f) f = add_job db f)
    ∧ (db.any (fun j => j.input_file == f) = true → add_job db f = db) := by
  constructor
  · intro h
    have h1 : add_job db f = db ++ [pendingJob (freshId db) f] := by
      simp [add_job, h]
    refine ⟨h1, ?_⟩
    rw [h1]
    have h2 : (db ++ [pendingJob (freshId db) f]).any
        (fun j => j.input_file == f) = true := by
      simp [pendingJob]
    simp [add_job, h2, h1]
  · intro h
    simp [add_job, h]

/-- Witness for claim C5 on the empty store. -/
theorem add_job_idempotent_witness :
    add_job [] "/a/x" = [] ++ [pendingJob (freshId []) "/a/x"]
    ∧ add_job (add_job [] "/a/x") "/a/x" = add_job [] "/a/x" :=
  (add_job_idempotent [] "/a/x").1 (by decide)

theorem min_double_cap (a : Nat) : min (min a 300 * 2) 300 = min (a * 2) 300 := by
  omega

theorem loopWaits_replicate (k : Nat) :
    ∀ i : Nat, loopWaits (min (2 ^ i) 300) (List.replicate k 0)
      = (List.range k).map (fun j => min (2 ^ (i + 1 + j)) 300) := by
  induction k with
  | zero => intro i; rfl
  | succ k ih =>
    intro i
    have key : min (min (2 ^ i) 300 * 2) 300 = min (2 ^ (i + 1)) 300 := by
      rw [pow_succ]
      exact min_double_cap (2 ^ i)
    have hstep : loopWaits (min (2 ^ i) 300) (0 :: List.replicate k 0)
        = min (2 ^ (i + 1)) 300
            :: loopWaits (min (2 ^ (i + 1)) 300) (List.replicate k 0) := by
      simp only [loopWaits, Nat.lt_irrefl, if_false, key]
    rw [List.replicate_succ, hstep, ih (i + 1),
      List.range_succ_eq_map, List.map_cons, List.map_map]
    refine congrArg₂ List.cons rfl ?_
    refine List.map_congr_left ?_
    intro a _
    simp only [Function.comp_apply]
    have harith : i + 1 + 1 + a = i + 1 + Nat.succ a := by omega
    rw [harith]

/-- Claim C2 (amended): for a maximal run of consecutive idle cycles the
successive wait durations are 2, 4, 8, …, each double the previous and
capped at 300 (the j-th idle wait is `min 2^(j+1) 300`); any cycle that
executed at least one job resets the counter, so the next idle wait is
again 2. -/
theorem idle_backoff_doubles_from_two :
    (∀ k : Nat, loopWaits 1 (List.replicate k 0)
        = (List.range k).map (fun j => min (2 ^ (j + 1)) 300))
    ∧ ∀ (timer n : Nat) (rest : List Nat), 0 < n →
        loopWaits timer (n :: rest) = loopWaits 1 rest := by
  constructor
  · intro k
    have h := loopWaits_replicate k 0
    have h1 : min (2 ^ 0) 300 = 1 := by norm_num
    rw [h1] at h
    rw [h]
    refine List.map_congr_left ?_
    intro a _
    have harith : 0 + 1 + a = a + 1 := by omega
    rw [harith]
  · intro timer n rest hn
    simp [loopWaits, hn]

/-- Witness for the amended claim C2: a busy cycle resets the timer. -/
theorem idle_backoff_doubles_from_two_witness :
    loopWaits 7 (3 :: [0]) = loopWaits 1 [0] :=
  idle_backoff_doubles_from_two.2 7 3 [0] (by decide)

/-- Claim C3 (counterexample): because the process is launched with
`check=True`, a nonzero exit code raises `CalledProcessError` and is
recorded as `exit_code = 1`, not as the observed code (here 2). -/
theorem nonzero_exit_code_counterexample :
    (run_job true ["/a/x"] (some 2) 0 1 [pendingJob 1 "/a/x"] 1 "/a/x").1.map
        Job.exit_code = [some 1]
    ∧ ¬ ∀ j ∈ (run_job true ["/a/x"] (some 2) 0 1 [pendingJob 1 "/a/x"] 1 "/a/x").1,
        j.id = 1 → j.exit_code = some 2 := by
  decide

/-- Claim C3 (amended): when `run_job` reaches the invocation step, a zero
exit code marks the job `completed` with `exit_code = 0`; any nonzero exit
code and any launch exception alike mark it `failed` with
`exit_code = 1` (the observed nonzero code is not preserved). -/
theorem run_job_execution_outcome (fs : List String) (outcome : Option Int)
    (t1 t2 : Nat) (db : List Job) (job_id : Nat) (f : String)
    (hf : fs.contains f = true) :
    (run_job true fs outcome t1 t2 db job_id f).2
        = (if outcome = some 0 then "completed" else "failed")
    ∧ ∀ j ∈ (run_job true fs outcome t1 t2 db job_id f).1, j.id = job_id →
        j.status = (if outcome = some 0 then "completed" else "failed")
        ∧ j.exit_code = some (if outcome = some 0 then (0:Int) else 1) := by
  have hmem : f ∈ fs := List.mem_of_elem_eq_true hf
  have hkey : ∀ (st : String) (ec : Int),
      run_job true fs outcome t1 t2 db job_id f
        = (mark_finished (mark_running db job_id t1) job_id st ec t2, st) →
      (run_job true fs outcome t1 t2 db job_id f).2 = st
      ∧ ∀ j ∈ (run_job true fs outcome t1 t2 db job_id f).1, j.id = job_id →
          j.status = st ∧ j.exit_code = some ec := by
    intro st ec heq
    rw [heq]
    exact ⟨rfl, mark_finished_fields _ _ _ _ _⟩
  cases outcome with
  | none =>
    have heq : run_job true fs none t1 t2 db job_id f
        = (mark_finished (mark_running db job_id t1) job_id "failed" 1 t2,
           "failed") := by
      simp [run_job, runWithCheck, hf, hmem]
    simpa using hkey "failed" 1 heq
  | some c =>
    by_cases hc : c = 0
    · subst hc
      have heq : run_job true fs (some 0) t1 t2 db job_id f
          = (mark_finished (mark_running db job_id t1) job_id "completed" 0 t2,
             "completed") := by
        simp [run_job, runWithCheck, hf, hmem]
      simpa using hkey "completed" 0 heq
    · have heq : run_job true fs (some c) t1 t2 db job_id f
          = (mark_finished (mark_running db job_id t1) job_id "failed" 1 t2,
             "failed") := by
        simp [run_job, runWithCheck, hf, hmem, hc]
      have h2 := hkey "failed" 1 heq
      simpa [hc] using h2

/-- Witness for the amended claim C3 at a nonzero exit code. -/
theorem run_job_execution_outcome_witness :
    (run_job true ["/a/x"] (some 2) 0 1 [pendingJob 1 "/a/x"] 1 "/a/x").2
      = (if (some 2 : Option Int) = some 0 then "completed" else "failed") :=
  (run_job_execution_outcome ["/a/x"] (some 2) 0 1 [pendingJob 1 "/a/x"] 1
    "/a/x" (by decide)).1

theorem syncRemove_none_eq_filter (fs : List String) :
    ∀ (F : List String) (db : List Job),
      (db.map Job.id).Nodup → (db.map Job.input_file).Nodup →
      syncRemove fs none none F db
        = db.filter (fun j => !(F.contains j.input_file) || fs.contains j.input_file) := by
  intro F
  induction F with
  | nil =>
    intro db _ _
    symm
    refine List.filter_eq_self.2 ?_
    intro j _
    simp
  | cons p rest ih =>
    intro db hid hpath
    simp only [syncRemove, inSyncScope, if_true]
    by_cases hfs : fs.contains p = true
    · rw [if_pos hfs, ih db hid hpath]
      have hpm : p ∈ fs := List.mem_of_elem_eq_true hfs
      refine List.filter_congr ?_
      intro j hj
      by_cases hp : j.input_file = p
      · simp [hp, hpm]
      · simp [List.contains_cons, hp]
    · rw [if_neg hfs]
      rw [remove_job_eq_filter db p hid hpath]
      have hsub : List.Sublist (db.filter (fun j => !(j.input_file == p))) db :=
        List.filter_sublist db
      have hid' : ((db.filter (fun j => !(j.input_file == p))).map Job.id).Nodup :=
        hid.sublist (hsub.map Job.id)
      have hpath' : ((db.filter (fun j => !(j.input_file == p))).map
          Job.input_file).Nodup :=
        hpath.sublist (hsub.map Job.input_file)
      rw [ih _ hid' hpath', List.filter_filter]
      have hpnm : p ∉ fs := fun hmem => hfs (List.elem_eq_true_of_mem hmem)
      refine List.filter_congr ?_
      intro j hj
      by_cases hp : j.input_file = p
      · simp [hp, hpnm]
      · simp [List.contains_cons, hp]

/-- Claim C6: `sync` with no scope removes exactly the jobs whose backing
file is absent — under the store's `PRIMARY KEY` (distinct ids) and
`UNIQUE input_file` invariants, the result is precisely the store filtered
to the jobs whose file still exists, every surviving row unchanged. -/
theorem sync_unscoped_removes_exactly_missing (fs : List String)
    (db : List Job) (hid : (db.map Job.id).Nodup)
    (hpath : (db.map Job.input_file).Nodup) :
    sync_database_with_filesystem fs none none db
      = db.filter (fun j => fs.contains j.input_file) := by
  unfold sync_database_with_filesystem
  rw [syncRemove_none_eq_filter fs (get_all_job_files db) db hid hpath]
  refine List.filter_congr ?_
  intro j hj
  have hmem : j.input_file ∈ get_all_job_files db := by
    simp only [get_all_job_files]
    exact List.mem_map_of_mem _ hj
  simp [hmem]

/-- Witness for claim C6: one existing and one vanished file. -/
theorem sync_unscoped_removes_exactly_missing_witness :
    sync_database_with_filesystem ["/a"] none none
        [pendingJob 1 "/a", pendingJob 2 "/b"]
      = [pendingJob 1 "/a", pendingJob 2 "/b"].filter
          (fun j => (["/a"] : List String).contains j.input_file) :=
  sync_unscoped_removes_exactly_missing ["/a"]
    [pendingJob 1 "/a", pendingJob 2 "/b"] (by decide) (by decide)

/-- Claim C7: when the command configuration resolved but the backing file
no longer exists, `run_job` deletes exactly that job's row and returns the
distinct outcome `removed` — no row is marked running, no attempts counter
moves, every other row is untouched, and the path is gone from the file
list. -/
theorem run_job_missing_input_removed (fs : List String)
    (outcome : Option Int) (t1 t2 : Nat) (db : List Job) (job_id : Nat)
    (f : String) (hid : (db.map Job.id).Nodup)
    (hpath : (db.map Job.input_file).Nodup) (hf : fs.contains f = false) :
    run_job true fs outcome t1 t2 db job_id f
        = (db.filter (fun j => !(j.input_file == f)), "removed")
    ∧ (get_all_job_files
        (run_job true fs outcome t1 t2 db job_id f).1).contains f = false := by
  have hnm : f ∉ fs := by simpa using hf
  have h1 : run_job true fs outcome t1 t2 db job_id f
      = (remove_job db f, "removed") := by
    simp [run_job, hf, hnm]
  have h2 := remove_job_eq_filter db f hid hpath
  refine ⟨by rw [h1, h2], ?_⟩
  rw [h1, h2]
  cases hcontains : ((db.filter (fun j => !(j.input_file == f))).map
      (fun j => j.input_file)).contains f with
  | false => exact hcontains
  | true =>
    exfalso
    have hmem := List.mem_of_elem_eq_true hcontains
    rcases List.mem_map.1 hmem with ⟨j, hjf, hjeq⟩
    have hcond := (List.mem_filter.1 hjf).2
    simp [hjeq] at hcond

/-- Witness for claim C7: the single job's file has vanished. -/
theorem run_job_missing_input_removed_witness :
    run_job true [] (some 0) 0 0 [pendingJob 1 "/a/x"] 1 "/a/x"
        = ([pendingJob 1 "/a/x"].filter (fun j => !(j.input_file == "/a/x")),
           "removed")
    ∧ (get_all_job_files
        (run_job true [] (some 0) 0 0 [pendingJob 1 "/a/x"] 1 "/a/x").1).contains
        "/a/x" = false :=
  run_job_missing_input_removed [] (some 0) 0 0 [pendingJob 1 "/a/x"] 1
    "/a/x" (by decide) (by decide) (by decide)

/-- Claim C10: the actionable query returns only rows whose status is
`pending` or `failed`, and none of `add_job`, `remove_job`, the
mark-running update or `sync` can turn a `running` row into anything other
than a `running` row (or delete it) — so a job stranded in `running` is
never returned by the actionable scan and never retried. -/
theorem running_jobs_never_actionable (db : List Job) (f : String)
    (job_id t : Nat) (fs : List String) (md pat : Option String) :
    (∀ pr ∈ get_pending_jobs db, ∃ j, j ∈ db ∧ j.id = pr.1
        ∧ j.input_file = pr.2 ∧ (j.status = "pending" ∨ j.status = "failed"))
    ∧ (∀ j ∈ add_job db f, j ∈ db ∨ j.status = "pending")
    ∧ (∀ j ∈ remove_job db f, j ∈ db)
    ∧ (∀ j ∈ mark_running db job_id t, j ∈ db ∨ j.status = "running")
    ∧ (∀ j ∈ sync_database_with_filesystem fs md pat db, j ∈ db) := by
  refine ⟨?_, ?_, ?_, ?_, ?_⟩
  · intro pr hpr
    rcases List.mem_map.1 hpr with ⟨j, hj, rfl⟩
    rcases List.mem_filter.1 hj with ⟨hjdb, hcond⟩
    refine ⟨j, hjdb, rfl, rfl, ?_⟩
    simpa using hcond
  · intro j hj
    unfold add_job at hj
    split at hj
    · exact Or.inl hj
    · rcases List.mem_append.1 hj with h | h
      · exact Or.inl h
      · rcases List.mem_singleton.1 h with rfl
        exact Or.inr rfl
  · intro j hj
    exact remove_job_mem hj
  · intro j hj
    rcases List.mem_map.1 hj with ⟨j0, hj0, rfl⟩
    by_cases h : j0.id = job_id
    · exact Or.inr (by simp [markRunningRow, h])
    · exact Or.inl (by simpa [markRunningRow, h] using hj0)
  · intro j hj
    exact syncRemove_mem fs md pat _ db j hj

/-- Witness for claim C10: the single pending job is actionable and comes
from a `pending` row. -/
theorem running_jobs_never_actionable_witness :
    ∃ j, j ∈ [pendingJob 1 "/a/x"] ∧ j.id = 1 ∧ j.input_file = "/a/x"
      ∧ (j.status = "pending" ∨ j.status = "failed") :=
  (running_jobs_never_actionable [pendingJob 1 "/a/x"] "/b" 0 0 [] none
    none).1 (1, "/a/x") (by decide)

end JobScheduler
